/-
  Verification of the recon-tool orchestration core (Go repository,
  main program in backend/main.go together with the scanners/, parsers/
  and utils/ packages).

  The Go code is shallowly embedded: pure helper functions (string
  splitting, dedup, the output parsers) become Lean functions on
  `String`/`List Char`; the sequential Stage Runner goroutine becomes an
  explicit list of atomic mutation blocks applied to an explicit
  `ScanState`; external subprocess invocations and library calls
  (RunCommand, net.LookupIP, the Shodan HTTP call, json.Unmarshal) are
  parameters of the embedding, since their behaviour is outside the
  program.  Field accesses relevant to the locking discipline are
  transcribed into an explicit access table.
-/
import Mathlib

set_option maxRecDepth 4000

/-! ## Go string primitives used by the tool -/

/-- Character-level model of Go `strings.Split(s, "\n")`. -/
def splitOnNl : List Char → List (List Char)
  | [] => [[]]
  | c :: cs =>
    if c = Char.ofNat 10 then [] :: splitOnNl cs
    else
      match splitOnNl cs with
      | [] => [[c]]
      | l :: ls => (c :: l) :: ls

/-- Go `strings.Split(s, "\n")`: splitting the empty string yields one
empty field, exactly as in Go. -/
def goSplit (s : String) : List String :=
  (splitOnNl s.toList).map (fun l => String.mk l)

/-- Drop a single trailing carriage return, as `bufio.ScanLines` does. -/
def dropCRend (l : List Char) : List Char :=
  match l.getLast? with
  | some c => if c = Char.ofNat 13 then l.dropLast else l
  | none => l

/-- Model of reading a string through `bufio.Scanner` with the default
`ScanLines` split function: tokens are the newline-separated lines, a
trailing final newline produces no extra empty token, a trailing `\r`
is stripped from each line, and the empty input yields no token. -/
def splitLinesGo (s : String) : List String :=
  match s.toList with
  | [] => []
  | c :: cs =>
    let parts := splitOnNl (c :: cs)
    let parts2 := if (c :: cs).getLast? = some (Char.ofNat 10) then parts.dropLast else parts
    parts2.map (fun l => String.mk (dropCRend l))

/-- Substring test on character lists (Go `strings.Contains`). -/
def listContainsSub (hay needle : List Char) : Bool :=
  match hay with
  | [] => needle.isEmpty
  | c :: t => needle.isPrefixOf (c :: t) || listContainsSub t needle

/-- Go `strings.Contains(s, sub)`. -/
def goContains (s sub : String) : Bool :=
  listContainsSub s.toList sub.toList

/-- Go `fmt.Sprintf("%v", b)` for a boolean. -/
def goBoolString (b : Bool) : String :=
  if b then "true" else "false"

/-! ## Model of the URL regular expression

Both output parsers use the Go regexp `(http[s]?://[^\s]+)` and keep
`FindStringSubmatch`'s first group, which is the whole match.  The model
finds the leftmost position where the literal scheme `http`, an optional
`s`, and `://` are followed by at least one non-whitespace character,
and returns the maximal non-whitespace run from the scheme on. -/

/-- RE2 `\s`: space, tab, newline, form feed, carriage return. -/
def goIsSpace (c : Char) : Bool :=
  c = ' ' || c = Char.ofNat 9 || c = Char.ofNat 10 || c = Char.ofNat 12 || c = Char.ofNat 13

/-- Strip an expected literal from the front of a character list. -/
def dropLit : List Char → List Char → Option (List Char)
  | [], cs => some cs
  | _ :: _, [] => none
  | p :: ps, c :: cs => if c = p then dropLit ps cs else none

/-- Match `http[s]?://[^\s]+` anchored at the head of the list, returning
the matched characters. -/
def urlAt (cs : List Char) : Option (List Char) :=
  match dropLit ("http".toList) cs with
  | none => none
  | some rest =>
    let core : Option (Bool × List Char) :=
      match rest with
      | 's' :: r =>
        match dropLit ("://".toList) r with
        | some r2 => some (true, r2)
        | none => none
      | _ =>
        match dropLit ("://".toList) rest with
        | some r2 => some (false, r2)
        | none => none
    match core with
    | none => none
    | some (hasS, r2) =>
      let tail := r2.takeWhile (fun c => !goIsSpace c)
      if tail.isEmpty then none
      else some ("http".toList ++ (if hasS then ['s'] else []) ++ "://".toList ++ tail)

/-- Leftmost match of the URL pattern in a character list. -/
def findUrlList : List Char → Option (List Char)
  | [] => none
  | c :: cs =>
    match urlAt (c :: cs) with
    | some u => some u
    | none => findUrlList cs

/-- `re.FindStringSubmatch(line)` for the URL pattern: the extracted URL,
if any. -/
def findUrl (line : String) : Option String :=
  (findUrlList line.toList).map (fun l => String.mk l)

/-! ## Data structures (backend/main.go) -/

/-- `SubdomainResult` from backend/main.go. -/
structure SubdomainResult where
  hostname : String
  ip : String
  ports : List Nat
  deriving DecidableEq

/-- `VulnerabilityResult` from backend/main.go. -/
structure VulnerabilityResult where
  url : String
  issue : String
  detail : String
  deriving DecidableEq

/-- `FfufResult` from backend/main.go. -/
structure FfufResult where
  path : String
  status : Nat
  size : Nat
  deriving DecidableEq

/-- `ScanResult` from backend/main.go: the single shared aggregate.  Field
names follow the source (`AllURLs` is the spec's discoveredURLs,
`Running` its isRunning). -/
structure ScanState where
  subdomains : List SubdomainResult
  vulnURLs : List VulnerabilityResult
  ffufEntries : List FfufResult
  allURLs : List String
  logLines : List String
  finalReport : String
  running : Bool
  proxyEnabled : Bool
  deriving DecidableEq

/-- The state installed by `main` before the pipeline starts:
`ScanResult{Running: true, LogLines: []string{}, ProxyEnabled: false}`,
remaining fields at their Go zero values. -/
def initState : ScanState :=
  { subdomains := [], vulnURLs := [], ffufEntries := [], allURLs := []
    logLines := [], finalReport := "", running := true, proxyEnabled := false }

/-! ## Output parsers (backend/main.go and parsers/) -/

/-- Loop body of `ParseSqlmapOutput`. -/
def sqlmapStep (results : List VulnerabilityResult) (line : String) : List VulnerabilityResult :=
  if goContains line "is vulnerable" then
    match findUrl line with
    | some u => results ++ [{ url := u, issue := "SQL Injection", detail := line }]
    | none => results
  else results

/-- `ParseSqlmapOutput` from backend/main.go (identical copy in
parsers/): scan the output line by line, keep lines containing
"is vulnerable" that also contain a URL. -/
def ParseSqlmapOutput (output : String) : List VulnerabilityResult :=
  (splitLinesGo output).foldl sqlmapStep []

/-- Loop body of `ParseDalfoxOutput`. -/
def dalfoxStep (results : List VulnerabilityResult) (line : String) : List VulnerabilityResult :=
  if goContains line "[POC]" then
    match findUrl line with
    | some u => results ++ [{ url := u, issue := "XSS", detail := line }]
    | none => results
  else results

/-- `ParseDalfoxOutput` from backend/main.go (identical copy in
parsers/dalfox_parser.go). -/
def ParseDalfoxOutput (output : String) : List VulnerabilityResult :=
  (splitLinesGo output).foldl dalfoxStep []

/-- Per-line classification of the dalfox parser: a line produces a
record exactly when it carries the "[POC]" marker and contains a URL. -/
def dalfoxLineFinding (line : String) : Option VulnerabilityResult :=
  if goContains line "[POC]" then
    match findUrl line with
    | some u => some { url := u, issue := "XSS", detail := line }
    | none => none
  else none

/-- The sqlmap-style sample line from the specification. -/
def sqlmapSampleLine : String :=
  "[12:00:00] [INFO] GET parameter \x27id\x27 is vulnerable. http://example.com/page?id=1"

/-! ## Dedup helpers -/

/-- Recursion of `uniqueStrings` with the `seen` map modelled as the list
of strings inserted so far. -/
def uniqueStringsAux (seen : List String) : List String → List String
  | [] => []
  | s :: rest =>
    if s ∈ seen then uniqueStringsAux seen rest
    else s :: uniqueStringsAux (s :: seen) rest

/-- `uniqueStrings` from backend/main.go (same as utils.UniqueStrings):
keep the first occurrence of every string, in order. -/
def uniqueStrings (l : List String) : List String :=
  uniqueStringsAux [] l

/-! ## The Stage Runner as a sequence of atomic mutation blocks

The scan goroutine in `main` runs the stages strictly in sequence.  Every
mutation of the shared `ScanState` is modelled as an event; events are
grouped into blocks such that a block is exactly the set of writes one
critical section performs (for the unlocked writes of the stage
functions, a block is a single write).  Snapshots taken by the Render
Loop are states after whole blocks.  Stage code never touches `running`
or `finalReport` (only `main`'s finalization section does), which the
embedding reflects by giving stage events their own type. -/

/-- Mutations the stage functions perform on the shared state. -/
inductive StageEv where
  | appendLog : String → StageEv
  | appendSubdomain : SubdomainResult → StageEv
  | setAllURLs : List String → StageEv
  | setFfufEntries : List FfufResult → StageEv
  | appendVulns : List VulnerabilityResult → StageEv
  deriving DecidableEq

/-- All mutations of the run, including `main`'s finalization writes. -/
inductive Ev where
  | stage : StageEv → Ev
  | setRunningFalse : Ev
  | setFinalReport : String → Ev
  deriving DecidableEq

def applyStageEv (s : ScanState) : StageEv → ScanState
  | .appendLog line => { s with logLines := s.logLines ++ [line] }
  | .appendSubdomain r => { s with subdomains := s.subdomains ++ [r] }
  | .setAllURLs us => { s with allURLs := us }
  | .setFfufEntries es => { s with ffufEntries := es }
  | .appendVulns vs => { s with vulnURLs := s.vulnURLs ++ vs }

def applyEv (s : ScanState) : Ev → ScanState
  | .stage e => applyStageEv s e
  | .setRunningFalse => { s with running := false }
  | .setFinalReport r => { s with finalReport := r }

def applyEvents (s : ScanState) (evs : List Ev) : ScanState :=
  evs.foldl applyEv s

def applyBlocks (s : ScanState) (bs : List (List Ev)) : ScanState :=
  bs.foldl applyEvents s

def applyStageBlocks (s : ScanState) (bs : List (List StageEv)) : ScanState :=
  bs.foldl (fun st b => b.foldl applyStageEv st) s

/-- Outcomes of the external tool invocations and library calls of one
run.  `RunCommand` always yields combined output text plus an optional
error; DNS resolution, the Shodan lookups and the optional credentials
are likewise parameters, since they are outside the program.  The three
pre-vulnerability tools' outputs and errors are discarded by the code
and therefore do not appear. -/
structure Params where
  target : String
  timestampStr : String
  assetOut : String
  assetErr : Option String
  amassOut : String
  amassErr : Option String
  alive : String → Bool
  hakOut : String
  hakErr : Option String
  gauOut : String
  gauErr : Option String
  waybackOut : String
  waybackErr : Option String
  ffufErr : Option String
  sqlOut : String
  sqlErr : Option String
  dalfoxOut : String
  dalfoxErr : Option String
  shodanKey : String
  lookupIPs : String → List String
  shodanData : String → Option String

/-- The subdomain records `EnumerateSubdomains` appends: one per
non-empty deduplicated output line of the two enumerators, with the
hardcoded demonstration IP and port list. -/
def enumerateSubdomainEntries (assetOut amassOut : String) : List SubdomainResult :=
  ((uniqueStrings (goSplit assetOut ++ goSplit amassOut)).filter (fun s => s ≠ "")).map
    (fun s => { hostname := s, ip := "192.0.2.1", ports := [80, 443] })

/-- `EnumerateSubdomains`: log, report tool errors, then append each
subdomain (an unlocked write) followed by its log line.  The combined
output of a failed command is still split and used, as in the source. -/
def enumBlocks (p : Params) : List (List StageEv) :=
  [[StageEv.appendLog "[*] Starting subdomain enumeration..."]]
  ++ (match p.assetErr with
      | some e => [[StageEv.appendLog ("[!] assetfinder error: " ++ e)]]
      | none => [])
  ++ (match p.amassErr with
      | some e => [[StageEv.appendLog ("[!] amass error: " ++ e)]]
      | none => [])
  ++ ((enumerateSubdomainEntries p.assetOut p.amassOut).map
      (fun r => [[StageEv.appendSubdomain r], [StageEv.appendLog ("[*] Discovered subdomain: " ++ r.hostname)]])).flatten

/-- `CheckLiveHosts`: reads the current subdomain list and logs the ones
that resolve. -/
def checkLiveBlocks (alive : String → Bool) (subs : List SubdomainResult) : List (List StageEv) :=
  [[StageEv.appendLog "[*] Checking live hosts..."]]
  ++ (subs.filter (fun r => alive r.hostname)).map
      (fun r => [StageEv.appendLog ("[*] Live: " ++ r.hostname)])

/-- Insertion into the `urlSet` map, modelled with insertion order (the
claims proved below do not depend on Go's unspecified map iteration
order). -/
def insertKey (ks : List String) (s : String) : List String :=
  if s ∈ ks then ks else ks ++ [s]

/-- One tool's output scanned line by line into the URL set; empty lines
are skipped. -/
def addURLLines (ks : List String) (out : String) : List String :=
  (splitLinesGo out).foldl (fun acc line => if line = "" then acc else insertKey acc line) ks

/-- The value `RunURLScan` assigns to `AllURLs`: the three crawlers'
lines merged into a set (a failed tool contributes nothing), then passed
through `uniqueStrings` once more. -/
def urlScanKeys (p : Params) : List String :=
  let k1 := match p.hakErr with | none => addURLLines [] p.hakOut | some _ => []
  let k2 := match p.gauErr with | none => addURLLines k1 p.gauOut | some _ => k1
  let k3 := match p.waybackErr with | none => addURLLines k2 p.waybackOut | some _ => k2
  uniqueStrings k3

/-- `RunURLScan` as mutation blocks. -/
def urlScanBlocks (p : Params) : List (List StageEv) :=
  [[StageEv.appendLog "[*] Running URL scanning tools (hakrawler, gau, waybackurls)..."]]
  ++ (match p.hakErr with
      | some e => [[StageEv.appendLog ("[!] hakrawler error: " ++ e)]]
      | none => [])
  ++ (match p.gauErr with
      | some e => [[StageEv.appendLog ("[!] gau error: " ++ e)]]
      | none => [])
  ++ (match p.waybackErr with
      | some e => [[StageEv.appendLog ("[!] waybackurls error: " ++ e)]]
      | none => [])
  ++ [[StageEv.setAllURLs (urlScanKeys p)]]
  ++ [[StageEv.appendLog ("[*] URL scan complete, found " ++ toString (urlScanKeys p).length ++ " URLs")]]

/-- The hardcoded demonstration entry of `RunFuzzing` in backend/main.go. -/
def ffufDemoEntry : FfufResult :=
  { path := "/admin", status := 200, size := 512 }

/-- Value of `FfufEntries` after `RunFuzzing` in backend/main.go: on an
ffuf error the function returns early leaving the previous value; on
success it assigns the single hardcoded entry, ignoring the output file. -/
def RunFuzzingEntriesMain (ffufErr : Option String) (prev : List FfufResult) : List FfufResult :=
  match ffufErr with
  | some _ => prev
  | none => [ffufDemoEntry]

/-- `RunFuzzing` (backend/main.go variant) as mutation blocks. -/
def fuzzingBlocks (p : Params) : List (List StageEv) :=
  [[StageEv.appendLog "[*] Running ffuf fuzzing..."]]
  ++ (match p.ffufErr with
      | some e => [[StageEv.appendLog ("[!] ffuf error: " ++ e)]]
      | none =>
        [[StageEv.setFfufEntries [ffufDemoEntry]],
         [StageEv.appendLog "[*] ffuf fuzzing completed."]])

/-- The scanners/fuzzing_scanner.go variant of the fuzzing stage parses
the ffuf output file line by line, decoding each line as JSON
(`json.Unmarshal` is a parameter) and keeping the lines that decode. -/
def parseFfufData (decode : String → Option FfufResult) (data : String) : List FfufResult :=
  (splitLinesGo data).foldl
    (fun acc line =>
      match decode line with
      | some entry => acc ++ [entry]
      | none => acc) []

/-- `RunPreVulnTools`: the three commands' results are discarded; only
the two log lines mutate the state. -/
def preVulnBlocks : List (List StageEv) :=
  [[StageEv.appendLog "[*] Running JSFINDER, ParamSpider, and ParamWizard..."],
   [StageEv.appendLog "[*] Pre-vulnerability endpoint discovery complete."]]

/-- `RunVulnerabilityScans`: parse and append findings of each scanner
whose invocation succeeded.  A failed invocation is skipped silently:
the source has no else branch and logs nothing. -/
def vulnScanBlocks (p : Params) : List (List StageEv) :=
  [[StageEv.appendLog "[*] Starting vulnerability scanning..."]]
  ++ (match p.sqlErr with
      | none => [[StageEv.appendVulns (ParseSqlmapOutput p.sqlOut)]]
      | some _ => [])
  ++ (match p.dalfoxErr with
      | none => [[StageEv.appendVulns (ParseDalfoxOutput p.dalfoxOut)]]
      | some _ => [])
  ++ [[StageEv.appendLog "[*] Vulnerability scanning complete."]]

/-- The log lines a list of stage blocks appends, in order: used to
state which stages log their tool failures and which stay silent. -/
def stageLogLines (bs : List (List StageEv)) : List String :=
  bs.flatten.filterMap
    (fun ev =>
      match ev with
      | StageEv.appendLog line => some line
      | _ => none)

/-- `EnrichWithShodan`, run by `main` only when the credential is
present: collect the IPv4 addresses of the known subdomains, dedup, and
log one line per successful Shodan lookup. -/
def shodanBlocks (p : Params) (subs : List SubdomainResult) : List (List StageEv) :=
  if p.shodanKey = "" then []
  else
    [[StageEv.appendLog "[*] Starting Shodan enrichment..."]]
    ++ ((uniqueStrings ((subs.map (fun r => p.lookupIPs r.hostname)).flatten)).filterMap
        (fun ip =>
          match p.shodanData ip with
          | some d => some [StageEv.appendLog ("[*] Shodan for " ++ ip ++ ": " ++ d)]
          | none => none))
    ++ [[StageEv.appendLog "[*] Shodan enrichment complete."]]

/-- All mutation blocks the scan goroutine performs before `main`'s
finalization, in program order, threading the state through the stages
that read it (`CheckLiveHosts` and `EnrichWithShodan` read the
subdomain list). -/
def stageBlocksAll (p : Params) : List (List StageEv) :=
  let pre := [[StageEv.appendLog "========== Starting Scan =========="]] ++ enumBlocks p
  let s2 := applyStageBlocks initState pre
  let mid := pre
    ++ checkLiveBlocks p.alive s2.subdomains
    ++ urlScanBlocks p
    ++ fuzzingBlocks p
    ++ preVulnBlocks
    ++ vulnScanBlocks p
  let s6 := applyStageBlocks initState mid
  mid ++ shodanBlocks p s6.subdomains

/-- The final report string `main` writes. -/
def reportOf (p : Params) : String :=
  "Final report for " ++ p.target ++ " generated at " ++ p.timestampStr

/-- The log line appended after finalization. -/
def scanDoneLine : String := "========== Scan Complete =========="

/-- The complete mutation-block sequence of one run of the scan
goroutine: the stages, then the finalization critical section (which
sets `Running` to false and writes the report under one lock
acquisition), then the closing log append. -/
def runBlocks (p : Params) : List (List Ev) :=
  (stageBlocksAll p).map (fun b => b.map Ev.stage)
  ++ [[Ev.setRunningFalse, Ev.setFinalReport (reportOf p)],
      [Ev.stage (StageEv.appendLog scanDoneLine)]]

/-- All mutation events of a run, in program order. -/
def runEvents (p : Params) : List Ev :=
  (runBlocks p).flatten

/-- The snapshot a reader can take after the first `n` atomic blocks. -/
def snapAfter (p : Params) (n : Nat) : ScanState :=
  applyBlocks initState ((runBlocks p).take n)

/-- The state at the end of the scan goroutine. -/
def finalStateOf (p : Params) : ScanState :=
  applyBlocks initState (runBlocks p)

/-! ## Render Loop and Interaction Handler -/

/-- Body of the view-update goroutine of `startTUI` for the data panes:
the panes are redrawn from a locked snapshot only when the guard
`!scanResult.Running` holds; otherwise the tick draws nothing. -/
def paneTick (s : ScanState) :
    Option (List SubdomainResult × List VulnerabilityResult × List FfufResult × String) :=
  if s.running then none
  else some (s.subdomains, s.vulnURLs, s.ffufEntries, s.finalReport)

/-- Body of the console-update goroutine of `startTUI`: the log pane is
redrawn from a locked snapshot on every tick, unconditionally. -/
def consoleTick (s : ScanState) : List String :=
  s.logLines

/-- The Interaction Handler's proxy-toggle action (key p in `startTUI`):
flip the flag under the lock, then call `AppendLog` with a line showing
the new value. -/
def toggleProxy (s : ScanState) : ScanState :=
  let s1 := { s with proxyEnabled := !s.proxyEnabled }
  { s1 with logLines := s1.logLines ++ ["[*] Proxy enabled: " ++ goBoolString s1.proxyEnabled] }

/-! ## The lock discipline, transcribed access by access

Every syntactic access to a field of the shared `scanResult` in
backend/main.go, annotated with the agent performing it, the source
location, and whether `scanMu` is held at that point.  Line numbers
refer to the main source file. -/

/-- The spec's names for the fields of the shared ScanState. -/
inductive SField where
  | subdomains | vulnerabilities | fuzzHits | discoveredURLs
  | logLines | finalReportText | isRunning | proxyEnabled
  deriving DecidableEq

inductive AccKind where
  | read | write
  deriving DecidableEq

/-- Which concurrent activity performs an access.  The Interaction
Handler runs inside the Render Loop's event dispatch; `mainThread` is
the code `main` runs before launching the goroutines. -/
inductive Agent where
  | stageRunner | interactionHandler | renderLoop | mainThread
  deriving DecidableEq

structure FieldAccess where
  agent : Agent
  site : String
  field : SField
  kind : AccKind
  underLock : Bool
  deriving DecidableEq

/-- All accesses to `scanResult` fields in backend/main.go. -/
def accessTable : List FieldAccess :=
  [ -- AppendLog locks around its append; it is called by the scan
   -- goroutine's stages and by the proxy-toggle handler.
   { agent := .stageRunner, site := "AppendLog append, line 111",
     field := .logLines, kind := .write, underLock := true },
   { agent := .interactionHandler, site := "AppendLog append via toggle, line 492",
     field := .logLines, kind := .write, underLock := true },
   -- Stage functions mutate and read the shared state directly, with no
   -- Lock/Unlock in scope.
   { agent := .stageRunner, site := "EnumerateSubdomains append, line 227",
     field := .subdomains, kind := .write, underLock := false },
   { agent := .stageRunner, site := "CheckLiveHosts range, line 242",
     field := .subdomains, kind := .read, underLock := false },
   { agent := .stageRunner, site := "RunURLScan assign, line 310",
     field := .discoveredURLs, kind := .write, underLock := false },
   { agent := .stageRunner, site := "RunFuzzing assign, line 328",
     field := .fuzzHits, kind := .write, underLock := false },
   { agent := .stageRunner, site := "RunVulnerabilityScans sqlmap append, line 349",
     field := .vulnerabilities, kind := .write, underLock := false },
   { agent := .stageRunner, site := "RunVulnerabilityScans dalfox append, line 355",
     field := .vulnerabilities, kind := .write, underLock := false },
   { agent := .stageRunner, site := "RunVulnerabilityScans marshal, line 360",
     field := .vulnerabilities, kind := .read, underLock := false },
   { agent := .stageRunner, site := "EnrichWithShodan range, line 368",
     field := .subdomains, kind := .read, underLock := false },
   -- main initializes the state under the lock before the goroutines
   -- start.
   { agent := .mainThread, site := "main init, line 568",
     field := .isRunning, kind := .write, underLock := true },
   { agent := .mainThread, site := "main init, line 568",
     field := .logLines, kind := .write, underLock := true },
   { agent := .mainThread, site := "main init, line 568",
     field := .proxyEnabled, kind := .write, underLock := true },
   -- The finalization critical section.
   { agent := .stageRunner, site := "main finalize, line 595",
     field := .isRunning, kind := .write, underLock := true },
   { agent := .stageRunner, site := "main finalize, line 596",
     field := .finalReportText, kind := .write, underLock := true },
   -- PersistResults receives scanResult by value: an unlocked read of
   -- every field at the end of the goroutine.
   { agent := .stageRunner, site := "PersistResults copy, line 600",
     field := .subdomains, kind := .read, underLock := false },
   { agent := .stageRunner, site := "PersistResults copy, line 600",
     field := .vulnerabilities, kind := .read, underLock := false },
   { agent := .stageRunner, site := "PersistResults copy, line 600",
     field := .fuzzHits, kind := .read, underLock := false },
   { agent := .stageRunner, site := "PersistResults copy, line 600",
     field := .discoveredURLs, kind := .read, underLock := false },
   { agent := .stageRunner, site := "PersistResults copy, line 600",
     field := .logLines, kind := .read, underLock := false },
   { agent := .stageRunner, site := "PersistResults copy, line 600",
     field := .finalReportText, kind := .read, underLock := false },
   { agent := .stageRunner, site := "PersistResults copy, line 600",
     field := .isRunning, kind := .read, underLock := false },
   { agent := .stageRunner, site := "PersistResults copy, line 600",
     field := .proxyEnabled, kind := .read, underLock := false },
   -- The proxy toggle: flip under the lock, then two unlocked reads.
   { agent := .interactionHandler, site := "toggle negate read, line 489",
     field := .proxyEnabled, kind := .read, underLock := true },
   { agent := .interactionHandler, site := "toggle assign, line 489",
     field := .proxyEnabled, kind := .write, underLock := true },
   { agent := .interactionHandler, site := "updateProxyView argument, line 491",
     field := .proxyEnabled, kind := .read, underLock := false },
   { agent := .interactionHandler, site := "Sprintf argument, line 492",
     field := .proxyEnabled, kind := .read, underLock := false },
   -- The view-update goroutine: the guard reads Running before taking
   -- the lock; the pane bodies read under the lock.
   { agent := .renderLoop, site := "pane tick guard, line 500",
     field := .isRunning, kind := .read, underLock := false },
   { agent := .renderLoop, site := "pane tick subdomains, line 504",
     field := .subdomains, kind := .read, underLock := true },
   { agent := .renderLoop, site := "pane tick vulns, line 509",
     field := .vulnerabilities, kind := .read, underLock := true },
   { agent := .renderLoop, site := "pane tick ffuf, line 514",
     field := .fuzzHits, kind := .read, underLock := true },
   { agent := .renderLoop, site := "pane tick report, line 518",
     field := .finalReportText, kind := .read, underLock := true },
   { agent := .renderLoop, site := "console tick, line 530",
     field := .logLines, kind := .read, underLock := true }]

/-! ## Concrete runs used as explicit inputs -/

/-- A run in which every external tool produces empty output, only the
sqlmap invocation fails (with message "boom"), no host resolves and no
Shodan credential is present. -/
def pBoom : Params :=
  { target := "example.com", timestampStr := "Mon, 02 Jan 2006 15:04:05 MST"
    assetOut := "", assetErr := none
    amassOut := "", amassErr := none
    alive := fun _ => false
    hakOut := "", hakErr := none
    gauOut := "", gauErr := none
    waybackOut := "", waybackErr := none
    ffufErr := none
    sqlOut := "", sqlErr := some "boom"
    dalfoxOut := "", dalfoxErr := none
    shodanKey := ""
    lookupIPs := fun _ => []
    shodanData := fun _ => none }

/-- A run in which every external tool invocation fails, each with its
own error message. -/
def pAllFail : Params :=
  { target := "example.com", timestampStr := "Mon, 02 Jan 2006 15:04:05 MST"
    assetOut := "", assetErr := some "aboom"
    amassOut := "", amassErr := some "mboom"
    alive := fun _ => false
    hakOut := "", hakErr := some "hboom"
    gauOut := "", gauErr := some "gboom"
    waybackOut := "", waybackErr := some "wboom"
    ffufErr := some "fboom"
    sqlOut := "", sqlErr := some "sboom"
    dalfoxOut := "", dalfoxErr := some "dboom"
    shodanKey := ""
    lookupIPs := fun _ => []
    shodanData := fun _ => none }

/-! ## General lemmas about the embedding -/

theorem uniqueStringsAux_spec : ∀ (l seen : List String),
    (uniqueStringsAux seen l).Nodup ∧ ∀ x ∈ uniqueStringsAux seen l, x ∉ seen := by
  intro l
  induction l with
  | nil => intro seen; exact ⟨List.nodup_nil, by simp [uniqueStringsAux]⟩
  | cons s rest ih =>
    intro seen
    by_cases h : s ∈ seen
    · simp only [uniqueStringsAux, if_pos h]
      exact ih seen
    · simp only [uniqueStringsAux, if_neg h]
      obtain ⟨hnd, hmem⟩ := ih (s :: seen)
      refine ⟨List.nodup_cons.mpr ⟨fun hc => (hmem s hc) (List.mem_cons_self s _), hnd⟩, ?_⟩
      intro x hx
      rcases List.mem_cons.mp hx with rfl | hx'
      · exact h
      · exact fun hxseen => (hmem x hx') (List.mem_cons_of_mem _ hxseen)

theorem uniqueStrings_nodup (l : List String) : (uniqueStrings l).Nodup :=
  (uniqueStringsAux_spec l []).1

theorem dalfoxStep_eq (acc : List VulnerabilityResult) (line : String) :
    dalfoxStep acc line = acc ++ (dalfoxLineFinding line).toList := by
  unfold dalfoxStep dalfoxLineFinding
  by_cases h : goContains line "[POC]"
  · simp only [h, if_true]
    cases findUrl line <;> simp
  · simp [h]

theorem dalfox_foldl_eq (l : List String) :
    ∀ acc, l.foldl dalfoxStep acc = acc ++ l.filterMap dalfoxLineFinding := by
  induction l with
  | nil => intro acc; simp
  | cons line rest ih =>
    intro acc
    rw [List.foldl_cons, dalfoxStep_eq, ih, List.filterMap_cons]
    cases dalfoxLineFinding line <;> simp

theorem applyEvents_cons (s : ScanState) (e : Ev) (evs : List Ev) :
    applyEvents s (e :: evs) = applyEvents (applyEv s e) evs := rfl

theorem applyBlocks_cons (s : ScanState) (b : List Ev) (bs : List (List Ev)) :
    applyBlocks s (b :: bs) = applyBlocks (applyEvents s b) bs := rfl

theorem applyBlocks_append (s : ScanState) (bs1 bs2 : List (List Ev)) :
    applyBlocks s (bs1 ++ bs2) = applyBlocks (applyBlocks s bs1) bs2 := by
  simp [applyBlocks, List.foldl_append]

theorem applyStageEv_keeps (s : ScanState) (e : StageEv) :
    (applyStageEv s e).running = s.running ∧
      (applyStageEv s e).finalReport = s.finalReport := by
  cases e <;> simp [applyStageEv]

theorem applyEvents_stage_keeps (b : List StageEv) :
    ∀ s : ScanState, (applyEvents s (b.map Ev.stage)).running = s.running ∧
      (applyEvents s (b.map Ev.stage)).finalReport = s.finalReport := by
  induction b with
  | nil => intro s; exact ⟨rfl, rfl⟩
  | cons e rest ih =>
    intro s
    rw [List.map_cons, applyEvents_cons]
    obtain ⟨g1, g2⟩ := ih (applyEv s (Ev.stage e))
    obtain ⟨h1, h2⟩ := applyStageEv_keeps s e
    exact ⟨g1.trans h1, g2.trans h2⟩

theorem stageBlocks_keeps (A : List (List StageEv)) :
    ∀ s : ScanState,
      (applyBlocks s (A.map (fun b => b.map Ev.stage))).running = s.running ∧
      (applyBlocks s (A.map (fun b => b.map Ev.stage))).finalReport = s.finalReport := by
  induction A with
  | nil => intro s; exact ⟨rfl, rfl⟩
  | cons b A ih =>
    intro s
    rw [List.map_cons, applyBlocks_cons]
    obtain ⟨g1, g2⟩ := ih (applyEvents s (b.map Ev.stage))
    obtain ⟨h1, h2⟩ := applyEvents_stage_keeps b s
    exact ⟨g1.trans h1, g2.trans h2⟩

/-- Core of the write-order invariant: for any snapshot boundary `n` of
a run consisting of stage blocks followed by the finalization critical
section and the closing log line, a snapshot that observes
`running = false` has already observed the final report. -/
theorem take_blocks_report (r done : String) (A : List (List StageEv)) :
    ∀ (s : ScanState) (n : Nat), s.running = true →
      (applyBlocks s ((A.map (fun b => b.map Ev.stage)
        ++ [[Ev.setRunningFalse, Ev.setFinalReport r],
            [Ev.stage (StageEv.appendLog done)]]).take n)).running = false →
      (applyBlocks s ((A.map (fun b => b.map Ev.stage)
        ++ [[Ev.setRunningFalse, Ev.setFinalReport r],
            [Ev.stage (StageEv.appendLog done)]]).take n)).finalReport = r := by
  induction A with
  | nil =>
    intro s n hs
    rcases n with _ | (_ | m)
    · intro h
      exact absurd (hs.symm.trans h) (by decide)
    · intro _; rfl
    · intro _
      simp only [List.map_nil, List.nil_append, List.take_succ_cons, List.take_nil]
      rfl
  | cons b A ih =>
    intro s n hs
    rcases n with _ | n
    · intro h
      exact absurd (hs.symm.trans h) (by decide)
    · rw [List.map_cons, List.cons_append, List.take_succ_cons, applyBlocks_cons]
      apply ih (applyEvents s (b.map Ev.stage)) n
      exact (applyEvents_stage_keeps b s).1.trans hs

theorem stage_flatten_no_false (bs : List (List StageEv)) :
    Ev.setRunningFalse ∉ (bs.map (fun b => b.map Ev.stage)).flatten := by
  intro h
  rcases List.mem_flatten.mp h with ⟨b, hb, he⟩
  rcases List.mem_map.mp hb with ⟨b0, _, rfl⟩
  rcases List.mem_map.mp he with ⟨e, _, he2⟩
  exact Ev.noConfusion he2

theorem runEvents_count_false (p : Params) :
    (runEvents p).count Ev.setRunningFalse = 1 := by
  unfold runEvents runBlocks
  rw [List.flatten_append, List.count_append,
    List.count_eq_zero.mpr (stage_flatten_no_false _)]
  simp [List.count_cons]

theorem mem_stage_flatten {bs : List (List StageEv)} {b : List StageEv} {e : StageEv}
    (hb : b ∈ bs) (he : e ∈ b) :
    Ev.stage e ∈ (bs.map (fun x => x.map Ev.stage)).flatten :=
  List.mem_flatten.mpr ⟨b.map Ev.stage, List.mem_map_of_mem _ hb, List.mem_map_of_mem _ he⟩

theorem reportOf_ne_empty (p : Params) : reportOf p ≠ "" := by
  intro hr
  have hlen := congrArg String.length hr
  simp [reportOf, String.length_append] at hlen
  exact absurd hlen.1.1.1 (by decide)

theorem assetErr_block_mem (p : Params) (e : String) (h : p.assetErr = some e) :
    [StageEv.appendLog ("[!] assetfinder error: " ++ e)] ∈ stageBlocksAll p := by
  simp [stageBlocksAll, enumBlocks, h, List.mem_append]

theorem ffufErr_block_mem (p : Params) (e : String) (h : p.ffufErr = some e) :
    [StageEv.appendLog ("[!] ffuf error: " ++ e)] ∈ stageBlocksAll p := by
  simp [stageBlocksAll, fuzzingBlocks, h, List.mem_append]

theorem amassErr_block_mem (p : Params) (e : String) (h : p.amassErr = some e) :
    [StageEv.appendLog ("[!] amass error: " ++ e)] ∈ stageBlocksAll p := by
  simp [stageBlocksAll, enumBlocks, h, List.mem_append]

theorem hakErr_block_mem (p : Params) (e : String) (h : p.hakErr = some e) :
    [StageEv.appendLog ("[!] hakrawler error: " ++ e)] ∈ stageBlocksAll p := by
  simp [stageBlocksAll, urlScanBlocks, h, List.mem_append]

theorem gauErr_block_mem (p : Params) (e : String) (h : p.gauErr = some e) :
    [StageEv.appendLog ("[!] gau error: " ++ e)] ∈ stageBlocksAll p := by
  simp [stageBlocksAll, urlScanBlocks, h, List.mem_append]

theorem waybackErr_block_mem (p : Params) (e : String) (h : p.waybackErr = some e) :
    [StageEv.appendLog ("[!] waybackurls error: " ++ e)] ∈ stageBlocksAll p := by
  simp [stageBlocksAll, urlScanBlocks, h, List.mem_append]

/-- The vulnerability stage logs exactly its two banner lines, whatever
the sqlmap and dalfox invocations return: a failed scanner leaves no
trace in the log. -/
theorem vulnScan_logs_banners_only (p : Params) :
    stageLogLines (vulnScanBlocks p) =
      ["[*] Starting vulnerability scanning...",
       "[*] Vulnerability scanning complete."] := by
  unfold vulnScanBlocks stageLogLines
  cases p.sqlErr <;> cases p.dalfoxErr <;> rfl

/-- The pre-vulnerability stage logs exactly its two banner lines; the
three tools' results and errors are discarded by the code, so a failure
there leaves no trace either. -/
theorem preVuln_logs_banners_only :
    stageLogLines preVulnBlocks =
      ["[*] Running JSFINDER, ParamSpider, and ParamWizard...",
       "[*] Pre-vulnerability endpoint discovery complete."] := rfl

/-! ## Claims -/

/-- Claim C1, counterexample.  The claim states that every access to a
ScanState field happens under the single mutual-exclusion lock; the
transcribed access table refutes it: among others, the Stage Runner's
append to the subdomain list in `EnumerateSubdomains` happens with no
lock held. -/
theorem claim_C1_counterexample :
    ¬ ∀ a ∈ accessTable, a.underLock = true := by decide

/-- Claim C1, amended.  The lock protects exactly the accesses outside
the listed nineteen sites: `AppendLog`'s append, `main`'s
initialization and finalization, the proxy-flag flip, and the Render
Loop's pane-body and console reads are under the lock, while the Stage
Runner's field writes and reads inside the stages, the end-of-run
persistence copy, the Interaction Handler's post-toggle reads, and the
Render Loop's `isRunning` guard read are not. -/
theorem claim_C1_amended :
    (accessTable.filter (fun a => !a.underLock)).map FieldAccess.site =
      ["EnumerateSubdomains append, line 227",
       "CheckLiveHosts range, line 242",
       "RunURLScan assign, line 310",
       "RunFuzzing assign, line 328",
       "RunVulnerabilityScans sqlmap append, line 349",
       "RunVulnerabilityScans dalfox append, line 355",
       "RunVulnerabilityScans marshal, line 360",
       "EnrichWithShodan range, line 368",
       "PersistResults copy, line 600",
       "PersistResults copy, line 600",
       "PersistResults copy, line 600",
       "PersistResults copy, line 600",
       "PersistResults copy, line 600",
       "PersistResults copy, line 600",
       "PersistResults copy, line 600",
       "PersistResults copy, line 600",
       "updateProxyView argument, line 491",
       "Sprintf argument, line 492",
       "pane tick guard, line 500"] := by decide

/-- Claim C2, evaluation of the code at the failing input.  The view
update goroutine redraws the data panes only under the guard
`!scanResult.Running`: in the initial state, which is running, a tick
draws nothing, while in the same state with `Running` cleared it draws
the panes.  Pane redrawing therefore is conditioned on the Stage Runner
having finished, contrary to the claim. -/
theorem claim_C2_code_evaluation :
    initState.running = true ∧
    paneTick initState = none ∧
    paneTick { initState with running := false } = some ([], [], [], "") :=
  ⟨rfl, rfl, rfl⟩

/-- Claim C3, evaluation of the code at the failing input.  In the
executed `RunFuzzing` of backend/main.go, a successful ffuf invocation
always stores the single hardcoded entry, whereas the file-parsing
variant (scanners/fuzzing_scanner.go) yields the records decoded from
the output file — for an empty output file, no records at all,
whatever the JSON decoder does. -/
theorem claim_C3_code_evaluation :
    RunFuzzingEntriesMain none [] = [ffufDemoEntry] ∧
    (∀ decode : String → Option FfufResult, parseFfufData decode "" = []) ∧
    [ffufDemoEntry] ≠ ([] : List FfufResult) :=
  ⟨rfl, fun _ => rfl, by simp⟩

/-- Claim C4, counterexample.  The false transition of `Running` is not
the last write of the run: in a concrete run the last mutation event is
the "Scan Complete" log append, which follows the finalization critical
section. -/
theorem claim_C4_counterexample :
    (runEvents pBoom).getLast? = some (Ev.stage (StageEv.appendLog scanDoneLine)) ∧
    (runEvents pBoom).getLast? ≠ some Ev.setRunningFalse := by decide

/-- Claim C4, amended.  In every run `isRunning` starts true and is set
false by exactly one event, and because the false transition and the
report write share one critical section, every snapshot (a state at an
atomic-block boundary) that observes `running = false` observes a
non-empty final report; the false transition is however not the last
write, being followed by the completion log append. -/
theorem claim_C4_amended (p : Params) :
    initState.running = true ∧
    (runEvents p).count Ev.setRunningFalse = 1 ∧
    ∀ n : Nat, (snapAfter p n).running = false → (snapAfter p n).finalReport ≠ "" := by
  refine ⟨rfl, runEvents_count_false p, ?_⟩
  intro n h
  have h2 : (snapAfter p n).finalReport = reportOf p :=
    take_blocks_report (reportOf p) scanDoneLine (stageBlocksAll p) initState n rfl h
  rw [h2]
  exact reportOf_ne_empty p

/-- Claim C4, witness: in the concrete run `pBoom`, the snapshot after
all 16 atomic blocks observes `running = false`, hence a non-empty
final report. -/
theorem claim_C4_witness : (snapAfter pBoom 16).finalReport ≠ "" :=
  (claim_C4_amended pBoom).2.2 16 (by decide)

/-- Claim C5, counterexample.  A failing sqlmap invocation is not
logged: in the concrete run `pBoom`, where the sqlmap invocation fails
with message "boom" and every other tool succeeds, no log line of the
whole run contains that message — yet the run still reaches
finalization. -/
theorem claim_C5_counterexample :
    pBoom.sqlErr = some "boom" ∧
    (finalStateOf pBoom).running = false ∧
    ∀ l ∈ (finalStateOf pBoom).logLines, goContains l "boom" = false := by decide

/-- Claim C5, amended.  A failing external tool invocation never aborts
the pipeline: every run reaches finalization with `running = false` and
the final report written; the failures of the enumeration tools
(assetfinder, amass), of the URL-scan tools (hakrawler, gau,
waybackurls) and of ffuf are each logged, whereas the vulnerability
stage (sqlmap, dalfox) and the pre-vulnerability stage log exactly
their banner lines whatever their tools return — those failures leave
no log line. -/
theorem claim_C5_amended (p : Params) :
    (finalStateOf p).running = false ∧
    (finalStateOf p).finalReport = reportOf p ∧
    reportOf p ≠ "" ∧
    (∀ e, p.assetErr = some e →
      Ev.stage (StageEv.appendLog ("[!] assetfinder error: " ++ e)) ∈ runEvents p) ∧
    (∀ e, p.amassErr = some e →
      Ev.stage (StageEv.appendLog ("[!] amass error: " ++ e)) ∈ runEvents p) ∧
    (∀ e, p.hakErr = some e →
      Ev.stage (StageEv.appendLog ("[!] hakrawler error: " ++ e)) ∈ runEvents p) ∧
    (∀ e, p.gauErr = some e →
      Ev.stage (StageEv.appendLog ("[!] gau error: " ++ e)) ∈ runEvents p) ∧
    (∀ e, p.waybackErr = some e →
      Ev.stage (StageEv.appendLog ("[!] waybackurls error: " ++ e)) ∈ runEvents p) ∧
    (∀ e, p.ffufErr = some e →
      Ev.stage (StageEv.appendLog ("[!] ffuf error: " ++ e)) ∈ runEvents p) ∧
    stageLogLines (vulnScanBlocks p) =
      ["[*] Starting vulnerability scanning...",
       "[*] Vulnerability scanning complete."] ∧
    stageLogLines preVulnBlocks =
      ["[*] Running JSFINDER, ParamSpider, and ParamWizard...",
       "[*] Pre-vulnerability endpoint discovery complete."] := by
  refine ⟨?_, ?_, reportOf_ne_empty p, ?_, ?_, ?_, ?_, ?_, ?_,
    vulnScan_logs_banners_only p, preVuln_logs_banners_only⟩
  · simp [finalStateOf, runBlocks, applyBlocks_append, applyBlocks, applyEvents, applyEv,
      applyStageEv]
  · simp [finalStateOf, runBlocks, applyBlocks_append, applyBlocks, applyEvents, applyEv,
      applyStageEv]
  · intro e he
    unfold runEvents runBlocks
    rw [List.flatten_append]
    exact List.mem_append_left _
      (mem_stage_flatten (assetErr_block_mem p e he) (by simp))
  · intro e he
    unfold runEvents runBlocks
    rw [List.flatten_append]
    exact List.mem_append_left _
      (mem_stage_flatten (amassErr_block_mem p e he) (by simp))
  · intro e he
    unfold runEvents runBlocks
    rw [List.flatten_append]
    exact List.mem_append_left _
      (mem_stage_flatten (hakErr_block_mem p e he) (by simp))
  · intro e he
    unfold runEvents runBlocks
    rw [List.flatten_append]
    exact List.mem_append_left _
      (mem_stage_flatten (gauErr_block_mem p e he) (by simp))
  · intro e he
    unfold runEvents runBlocks
    rw [List.flatten_append]
    exact List.mem_append_left _
      (mem_stage_flatten (waybackErr_block_mem p e he) (by simp))
  · intro e he
    unfold runEvents runBlocks
    rw [List.flatten_append]
    exact List.mem_append_left _
      (mem_stage_flatten (ffufErr_block_mem p e he) (by simp))

/-- Claim C5, witness: in the concrete run `pAllFail` every external
tool invocation fails, and the failures of assetfinder, amass,
hakrawler, gau, waybackurls and ffuf each appear as a log-append event
of the run. -/
theorem claim_C5_witness :
    Ev.stage (StageEv.appendLog ("[!] assetfinder error: " ++ "aboom")) ∈ runEvents pAllFail ∧
    Ev.stage (StageEv.appendLog ("[!] amass error: " ++ "mboom")) ∈ runEvents pAllFail ∧
    Ev.stage (StageEv.appendLog ("[!] hakrawler error: " ++ "hboom")) ∈ runEvents pAllFail ∧
    Ev.stage (StageEv.appendLog ("[!] gau error: " ++ "gboom")) ∈ runEvents pAllFail ∧
    Ev.stage (StageEv.appendLog ("[!] waybackurls error: " ++ "wboom")) ∈ runEvents pAllFail ∧
    Ev.stage (StageEv.appendLog ("[!] ffuf error: " ++ "fboom")) ∈ runEvents pAllFail :=
  ⟨(claim_C5_amended pAllFail).2.2.2.1 "aboom" rfl,
   (claim_C5_amended pAllFail).2.2.2.2.1 "mboom" rfl,
   (claim_C5_amended pAllFail).2.2.2.2.2.1 "hboom" rfl,
   (claim_C5_amended pAllFail).2.2.2.2.2.2.1 "gboom" rfl,
   (claim_C5_amended pAllFail).2.2.2.2.2.2.2.1 "wboom" rfl,
   (claim_C5_amended pAllFail).2.2.2.2.2.2.2.2.1 "fboom" rfl⟩

/-- Claim C6, confirmed.  On the sqlmap-style sample line the parser
produces exactly one record, with the URL extracted by the pattern and
the issue kind "SQL Injection". -/
theorem claim_C6 :
    ParseSqlmapOutput sqlmapSampleLine =
      [{ url := "http://example.com/page?id=1", issue := "SQL Injection",
         detail := sqlmapSampleLine }] := by decide

/-- Claim C7, confirmed.  The dalfox parser produces exactly one XSS
record per line that both carries the "[POC]" marker and contains a URL
matching the fixed pattern (the run of the parser equals the per-line
classification mapped over the lines); a line without the marker yields
no record, whatever it contains. -/
theorem claim_C7 :
    (∀ output, ParseDalfoxOutput output = (splitLinesGo output).filterMap dalfoxLineFinding) ∧
    (∀ line, goContains line "[POC]" = false → dalfoxLineFinding line = none) := by
  constructor
  · intro output
    unfold ParseDalfoxOutput
    simpa using dalfox_foldl_eq (splitLinesGo output) []
  · intro line h
    unfold dalfoxLineFinding
    simp [h]

/-- Claim C7, witness: a line containing a URL but no "[POC]" marker is
classified as no finding. -/
theorem claim_C7_witness : dalfoxLineFinding "http://example.com/a" = none :=
  claim_C7.2 "http://example.com/a" (by decide)

/-- Claim C8, confirmed.  Whatever the three URL-discovery tools print,
including duplicate and overlapping lines, the list assigned to
`AllURLs` has no duplicates. -/
theorem claim_C8 (p : Params) : (urlScanKeys p).Nodup := by
  unfold urlScanKeys
  exact uniqueStrings_nodup _

/-- Claim C9, confirmed.  Toggling the proxy twice restores the flag,
leaves every other field unchanged, and appends exactly two log lines,
each recording the value the flag had just been given. -/
theorem claim_C9 (s : ScanState) :
    (toggleProxy (toggleProxy s)).proxyEnabled = s.proxyEnabled ∧
    (toggleProxy (toggleProxy s)).subdomains = s.subdomains ∧
    (toggleProxy (toggleProxy s)).vulnURLs = s.vulnURLs ∧
    (toggleProxy (toggleProxy s)).ffufEntries = s.ffufEntries ∧
    (toggleProxy (toggleProxy s)).allURLs = s.allURLs ∧
    (toggleProxy (toggleProxy s)).finalReport = s.finalReport ∧
    (toggleProxy (toggleProxy s)).running = s.running ∧
    (toggleProxy (toggleProxy s)).logLines =
      s.logLines ++ ["[*] Proxy enabled: " ++ goBoolString (!s.proxyEnabled),
                     "[*] Proxy enabled: " ++ goBoolString s.proxyEnabled] := by
  cases h : s.proxyEnabled <;> simp [toggleProxy, h, goBoolString]

/-- Claim C10, confirmed.  Every record the enumeration stage appends
carries the constant IP "192.0.2.1" and the constant port list
[80, 443], for every target and every enumerator output. -/
theorem claim_C10 (assetOut amassOut : String) (r : SubdomainResult)
    (h : r ∈ enumerateSubdomainEntries assetOut amassOut) :
    r.ip = "192.0.2.1" ∧ r.ports = [80, 443] := by
  unfold enumerateSubdomainEntries at h
  rcases List.mem_map.mp h with ⟨s, _, rfl⟩
  exact ⟨rfl, rfl⟩

/-- Claim C10, witness: the record produced for the concrete output
line "a.example.com" carries the constant IP and ports. -/
theorem claim_C10_witness :
    ({ hostname := "a.example.com", ip := "192.0.2.1", ports := [80, 443] } :
      SubdomainResult).ip = "192.0.2.1" ∧
    ({ hostname := "a.example.com", ip := "192.0.2.1", ports := [80, 443] } :
      SubdomainResult).ports = [80, 443] :=
  claim_C10 "a.example.com" "" _ (by decide)
